import Mathlib

/-!
# Verification of `scipydirect/__init__.py`

A shallow embedding of the python wrapper around the Fortran DIRECT
optimizer, together with theorems settling the specification claims.

The python module consists of:
* two module-level tuples `ERROR_MESSAGES` and `SUCCESS_MESSAGES`;
* `OptimizeResult`, a `dict` subclass with attribute accessors;
* `minimize`, which normalizes the bounds, wraps the user objective
  into the Fortran calling convention, calls the external `direct`
  routine, and converts its `(x, fun, ierror)` result into either a
  raised exception (negative `ierror`) or an `OptimizeResult`.

The external Fortran routine `direct` is not part of the repository:
`minimize` is modelled as a function parameterized by that routine, so
the theorems quantify over every possible engine result.

Numeric values are embedded as rationals (`ℚ`); python exceptions as an
explicit error type threaded through `Except`.
-/

/-- Python exceptions that the embedded code can raise. -/
inductive PyErr where
  /-- Raised by a `raise Exception(msg)` statement -/
  | exception (msg : String)
  /-- Raised by a tuple subscript out of range -/
  | indexError
  /-- Raised by `dict.__getitem__` / `dict.__delitem__` on a missing key -/
  | keyError
  /-- Raised as `AttributeError(name)` by `OptimizeResult.__getattr__` -/
  | attributeError (name : String)
  deriving DecidableEq, Repr

/-- Python values that flow through the wrapper: floats (as exact
rationals), ints, numpy arrays of floats, strings, and tuples (so a user
objective may return a `(value, flag)` pair, as the docstring of
`minimize` instructs). -/
inductive PyVal where
  | float (q : ℚ)
  | int (n : ℤ)
  | arr (xs : List ℚ)
  | str (s : String)
  | tup (a b : PyVal)
  deriving DecidableEq, Repr

/-- The tuple `ERROR_MESSAGES` as the python literal evaluates.  In the
source the fifth and sixth string literals are adjacent with no comma
between them, so python concatenates them into a single element: the
tuple has five elements, not six.  The `++` below mirrors that adjacency. -/
def ERROR_MESSAGES : List String :=
  [ "Maximum number of levels has been reached.",
    "An error occured while the function was sampled",
    "There was an error in the creation of the sample points",
    "Initialization failed",
    "maxf is too large" ++ "u[i] < l[i] for some i" ]

/-- The tuple `SUCCESS_MESSAGES` from the source, verbatim. -/
def SUCCESS_MESSAGES : List String :=
  [ "Number of function evaluations done is larger then maxf",
    "Number of iterations is equal to maxT",
    "The best function value found is within fglper of the (known) global optimum",
    "The volume of the hyperrectangle with best function value found is below volper",
    "The volume of the hyperrectangle with best function value found is smaller then volper" ]

/-- Whether the pattern `p` occurs as a contiguous substring of `s`
(both given as character lists). -/
def listOccurs (p : List Char) : List Char → Bool
  | [] => p.isEmpty
  | c :: rest => List.isPrefixOf p (c :: rest) || listOccurs p rest

/-- Whether `pat` occurs as a contiguous substring of `s`. -/
def strOccurs (pat s : String) : Bool :=
  listOccurs pat.toList s.toList

/-- Values of `OptimizeResult` are python `dict`s (with string keys, in
insertion order, keys unique). -/
abbrev PyDict := List (String × PyVal)

/-- First-match association-list lookup: the semantics of reading a key
from a python `dict` (keys are unique, so first match is the match). -/
def plookup : PyDict → String → Option PyVal
  | [], _ => none
  | (k, v) :: rest, name => if k = name then some v else plookup rest name

/-- Embeds `dict.__getitem__`: the stored value, or `KeyError`. -/
def dict_getitem (r : PyDict) (k : String) : Except PyErr PyVal :=
  match plookup r k with
  | some v => Except.ok v
  | none => Except.error PyErr.keyError

/-- Embeds `dict.__setitem__`: overwrite the value in place when the key is
present (python preserves insertion order), append otherwise. -/
def dict_setitem (r : PyDict) (k : String) (v : PyVal) : PyDict :=
  match plookup r k with
  | some _ => r.map fun p => if p.1 = k then (k, v) else p
  | none => r ++ [(k, v)]

/-- Embeds `dict.__delitem__`: remove the key, or `KeyError` when absent. -/
def dict_delitem (r : PyDict) (k : String) : Except PyErr PyDict :=
  match plookup r k with
  | some _ => Except.ok (r.filter fun p => p.1 ≠ k)
  | none => Except.error PyErr.keyError

namespace OptimizeResult

/-- Embeds `OptimizeResult.__getattr__`: `return self[name]`, and on `KeyError`
`raise AttributeError(name)`.  Any other error passes through. -/
def getattr (r : PyDict) (name : String) : Except PyErr PyVal :=
  match dict_getitem r name with
  | Except.ok v => Except.ok v
  | Except.error PyErr.keyError => Except.error (PyErr.attributeError name)
  | Except.error e => Except.error e

/-- Embeds `__setattr__ = dict.__setitem__` -/
def setattr (r : PyDict) (name : String) (v : PyVal) : PyDict :=
  dict_setitem r name v

/-- Embeds `__delattr__ = dict.__delitem__` -/
def delattr (r : PyDict) (name : String) : Except PyErr PyDict :=
  dict_delitem r name

end OptimizeResult

/-- Python tuple subscript `t[i]`: the element, or `IndexError` when out
of range. -/
def pySubscript (t : List String) (i : ℕ) : Except PyErr String :=
  match t.get? i with
  | some s => Except.ok s
  | none => Except.error PyErr.indexError

/-- The bounds normalization at the top of `minimize`:
`if bounds is None: l = zeros(nvar); u = ones(nvar)` else
`l = bounds[:, 0]; u = bounds[:, 1]`. -/
def compute_bounds (bounds : Option (List (ℚ × ℚ))) (nvar : ℕ) :
    List ℚ × List ℚ :=
  match bounds with
  | none => (List.replicate nvar 0, List.replicate nvar 1)
  | some bs => (bs.map Prod.fst, bs.map Prod.snd)

/-- The type of the user objective `func`: a point (numpy array of
floats) and the extra positional arguments `*args`, to an arbitrary
python value (the source passes whatever `func` returns straight
through). -/
abbrev Objective := List ℚ → List PyVal → PyVal

/-- The Fortran-convention objective produced by `_objective_wrap`:
point, `iidata`, `ddata`, `cdata`, `n`, `iisize`, `idsize`, `icsize`,
to a `(value, flag)` pair. -/
abbrev FortranObjective :=
  List ℚ → List ℤ → List ℚ → List (List ℕ) → ℕ → ℕ → ℕ → ℕ → PyVal × ℤ

/-- The inner function `_objective_wrap` from the source: `return func(x, *args), 0`.
The extra Fortran-convention parameters are accepted and ignored, and
the feasibility flag sent back to the engine is the literal `0`. -/
def _objective_wrap (func : Objective) (args : List PyVal) : FortranObjective :=
  fun x _iidata _ddata _cdata _n _iisize _idsize _icsize => (func x args, 0)

/-- The type of the external Fortran routine `direct`, exactly as
`minimize` calls it: objective, `eps`, `maxf`, `maxT`, `l`, `u`,
`algmethod`, `logfilename`, `fglobal`, `fglper`, `volper`, `sigmaper`,
`iidata`, `ddata`, `cdata`, returning `(x, fun, ierror)`. -/
abbrev DirectEngine :=
  FortranObjective → ℚ → ℤ → ℤ → List ℚ → List ℚ → ℤ → String →
    ℚ → ℚ → ℚ → ℚ → List ℤ → List ℚ → List (List ℕ) → List ℚ × ℚ × ℤ

/-- An engine that ignores its inputs and reports a fixed result; used
to instantiate theorems at concrete engine outcomes. -/
def constEngine (out : List ℚ × ℚ × ℤ) : DirectEngine :=
  fun _ _ _ _ _ _ _ _ _ _ _ _ _ _ _ => out

/-- The tail of `minimize` after `direct` returns `(x, fun, ierror)`:
`if ierror < 0: raise Exception(ERROR_MESSAGES[abs(ierror)-1])` —
where the subscript itself can raise `IndexError` — else
`return OptimizeResult(x=x, fun=fun, status=ierror)`. -/
def minimize_finish (x : List ℚ) (f : ℚ) (ierror : ℤ) :
    Except PyErr PyDict :=
  if ierror < 0 then
    match pySubscript ERROR_MESSAGES (ierror.natAbs - 1) with
    | Except.ok msg => Except.error (PyErr.exception msg)
    | Except.error e => Except.error e
  else
    Except.ok [("x", PyVal.arr x), ("fun", PyVal.float f),
               ("status", PyVal.int ierror)]

/-- The function `minimize`, parameterized by the external `direct` routine.  The
parameters follow the python signature: `func, bounds, nvar, args,
disp, eps, maxf, maxT, algmethod, fglobal, fglper, volper, sigmaper,
logfilename` (`disp` is accepted and never used, as in the source).
The dummy `iidata`, `ddata`, `cdata` arrays are empty, as in the source. -/
def minimize (direct : DirectEngine) (func : Objective)
    (bounds : Option (List (ℚ × ℚ))) (nvar : ℕ) (args : List PyVal)
    (_disp : Bool) (eps : ℚ) (maxf maxT : ℤ) (algmethod : ℤ)
    (fglobal fglper volper sigmaper : ℚ) (logfilename : String) :
    Except PyErr PyDict :=
  match direct (_objective_wrap func args) eps maxf maxT
      (compute_bounds bounds nvar).1 (compute_bounds bounds nvar).2
      algmethod logfilename fglobal fglper volper sigmaper [] [] [] with
  | (x, f, ierror) => minimize_finish x f ierror

/-- The default values of `minimize`'s keyword parameters, from its
`def` line. -/
structure MinimizeDefaults where
  disp : Bool
  eps : ℚ
  maxf : ℤ
  maxT : ℤ
  algmethod : ℤ
  fglobal : ℚ
  fglper : ℚ
  volper : ℚ
  sigmaper : ℚ
  logfilename : String

/-- From the `def` line: `bounds=None, nvar=None, args=(), disp=False, eps=1e-4, maxf=20000,
maxT=6000, algmethod=0, fglobal=-1e100, fglper=0.01, volper=-1.0,
sigmaper=-1.0, logfilename='DIRresults.txt'`. -/
def minimizeDefaults : MinimizeDefaults :=
  { disp := false
    eps := 1 / 10 ^ 4
    maxf := 20000
    maxT := 6000
    algmethod := 0
    fglobal := -(10 ^ 100)
    fglper := 1 / 100
    volper := -1
    sigmaper := -1
    logfilename := "DIRresults.txt" }

/-! ## Helper lemmas about association-list lookup -/

theorem plookup_append_single (r : PyDict) (k : String) (v : PyVal)
    (h : plookup r k = none) : plookup (r ++ [(k, v)]) k = some v := by
  induction r with
  | nil => simp [plookup]
  | cons p rest ih =>
    obtain ⟨k2, v2⟩ := p
    simp only [plookup, List.cons_append] at h ⊢
    by_cases hk : k2 = k
    · simp [hk] at h
    · rw [if_neg hk] at h ⊢
      exact ih h

theorem plookup_append_single_other (r : PyDict) (k k2 : String)
    (v : PyVal) (hne : k ≠ k2) :
    plookup (r ++ [(k, v)]) k2 = plookup r k2 := by
  induction r with
  | nil => simp [plookup, hne]
  | cons p rest ih =>
    obtain ⟨k3, v3⟩ := p
    simp only [plookup, List.cons_append]
    by_cases hk : k3 = k2
    · simp [hk]
    · rw [if_neg hk, if_neg hk]
      exact ih

theorem plookup_cons (k2 : String) (v2 : PyVal) (rest : PyDict)
    (name : String) :
    plookup ((k2, v2) :: rest) name
      = if k2 = name then some v2 else plookup rest name := rfl

theorem plookup_map_update_self (r : PyDict) (k : String) (v : PyVal)
    (h : (plookup r k).isSome) :
    plookup (r.map fun p => if p.1 = k then (k, v) else p) k = some v := by
  induction r with
  | nil => simp [plookup] at h
  | cons p rest ih =>
    obtain ⟨k2, v2⟩ := p
    rw [List.map_cons]
    by_cases hk : k2 = k
    · subst hk
      have hhead : (if ((k2, v2) : String × PyVal).1 = k2 then (k2, v) else (k2, v2)) = (k2, v) := by simp
      rw [hhead, plookup_cons, if_pos rfl]
    · have hhead : (if ((k2, v2) : String × PyVal).1 = k then (k, v) else (k2, v2)) = (k2, v2) := by simp [hk]
      rw [plookup_cons, if_neg hk] at h
      rw [hhead, plookup_cons, if_neg hk]
      exact ih h

theorem plookup_map_update_other (r : PyDict) (k k2 : String) (v : PyVal)
    (hne : k ≠ k2) :
    plookup (r.map fun p => if p.1 = k then (k, v) else p) k2
      = plookup r k2 := by
  induction r with
  | nil => rfl
  | cons p rest ih =>
    obtain ⟨k3, v3⟩ := p
    rw [List.map_cons]
    by_cases hk : k3 = k
    · subst hk
      have hhead : (if ((k3, v3) : String × PyVal).1 = k3 then (k3, v) else (k3, v3)) = (k3, v) := by simp
      rw [hhead, plookup_cons, plookup_cons]
      have h3 : ¬k3 = k2 := hne
      rw [if_neg h3, if_neg h3]
      exact ih
    · have hhead : (if ((k3, v3) : String × PyVal).1 = k then (k, v) else (k3, v3)) = (k3, v3) := by simp [hk]
      rw [hhead, plookup_cons, plookup_cons]
      by_cases hk2 : k3 = k2
      · rw [if_pos hk2, if_pos hk2]
      · rw [if_neg hk2, if_neg hk2]
        exact ih

theorem plookup_filter_out (r : PyDict) (k : String) :
    plookup (r.filter fun p => p.1 ≠ k) k = none := by
  induction r with
  | nil => rfl
  | cons p rest ih =>
    obtain ⟨k2, v2⟩ := p
    rw [List.filter_cons]
    by_cases hk : k2 = k
    · subst hk
      have hhead : (decide (((k2, v2) : String × PyVal).1 ≠ k2)) = false := by
        simp
      rw [hhead]
      simpa using ih
    · have hhead : (decide (((k2, v2) : String × PyVal).1 ≠ k)) = true := by
        simpa using hk
      rw [hhead]
      simp only [if_true, ite_true]
      rw [plookup_cons, if_neg hk]
      exact ih

theorem plookup_filter_other (r : PyDict) (k k2 : String) (hne : k2 ≠ k) :
    plookup (r.filter fun p => p.1 ≠ k) k2 = plookup r k2 := by
  induction r with
  | nil => rfl
  | cons p rest ih =>
    obtain ⟨k3, v3⟩ := p
    rw [List.filter_cons]
    by_cases hk : k3 = k
    · subst hk
      have hhead : (decide (((k3, v3) : String × PyVal).1 ≠ k3)) = false := by
        simp
      rw [hhead]
      have h3 : ¬k3 = k2 := fun h => hne h.symm
      simp only [Bool.false_eq_true, if_false, ite_false]
      rw [plookup_cons, if_neg h3]
      exact ih
    · have hhead : (decide (((k3, v3) : String × PyVal).1 ≠ k)) = true := by
        simpa using hk
      rw [hhead]
      simp only [if_true, ite_true]
      rw [plookup_cons, plookup_cons]
      by_cases hk2 : k3 = k2
      · rw [if_pos hk2, if_pos hk2]
      · rw [if_neg hk2, if_neg hk2]
        exact ih

/-! ## Claim theorems -/

/-- C6: the default configuration values of `minimize` are
sufficient-improvement epsilon `1e-4`, maximum evaluations `20000`,
maximum iterations `6000`, original-algorithm variant selector `0`, and
a known-global-optimum sentinel `-1e100`, a (strictly negative,
astronomically large in magnitude) value meaning "unknown". -/
theorem minimize_default_values :
    minimizeDefaults.eps = 1 / 10 ^ 4 ∧
    minimizeDefaults.maxf = 20000 ∧
    minimizeDefaults.maxT = 6000 ∧
    minimizeDefaults.algmethod = 0 ∧
    minimizeDefaults.fglobal = -(10 ^ 100) ∧
    minimizeDefaults.fglobal < -(10 ^ 99) := by
  refine ⟨rfl, rfl, rfl, rfl, rfl, ?_⟩
  norm_num [minimizeDefaults]

/-- C3 (code bug): the python tuple `ERROR_MESSAGES` is missing a comma
between its fifth and sixth string literals, so it has only five
elements, the fifth being the concatenation of the `maxf`-too-large and
inverted-bounds texts.  Consequently `minimize` raises an `IndexError`
for status code `-6` instead of the distinct inverted-bounds message,
and raises the merged two-in-one message for status code `-5`. -/
theorem error_messages_missing_comma :
    ERROR_MESSAGES.length = 5 ∧
    minimize (constEngine ([], 0, -6)) (fun _ _ => PyVal.float 0) none 1 []
      false 0 0 0 0 0 0 0 0 "" = Except.error PyErr.indexError ∧
    minimize (constEngine ([], 0, -5)) (fun _ _ => PyVal.float 0) none 1 []
      false 0 0 0 0 0 0 0 0 "" =
      Except.error (PyErr.exception
        ("maxf is too large" ++ "u[i] < l[i] for some i")) :=
  ⟨rfl, rfl, rfl⟩

/-- C5 (code bug): the fifth entry of `SUCCESS_MESSAGES` — the message
for the absolute-measure (`sigmaper`) termination criterion — mentions
the volume criterion parameter `volper` and never mentions `sigmaper`,
so it does not distinguish the fifth criterion from the fourth. -/
theorem fifth_success_message_names_volper :
    ∃ m, SUCCESS_MESSAGES.get? 4 = some m ∧
      strOccurs "volper" m = true ∧
      strOccurs "sigmaper" m = false ∧
      ∃ m4, SUCCESS_MESSAGES.get? 3 = some m4 ∧ strOccurs "volper" m4 = true :=
  ⟨_, rfl, by decide, by decide, _, rfl, by decide⟩

/-- C4 (code bug): `_objective_wrap` hardcodes the feasibility flag it
reports to the engine to `0` for every evaluated point, regardless of
what the user function returns; in particular a user function that
returns a `(value, 1)` pair — flagging the point infeasible as the
docstring instructs — still reaches the engine with flag `0` (and its
whole return value, pair included, in the value slot). -/
theorem objective_flag_hardcoded :
    (∀ (func : Objective) (args : List PyVal) (x : List ℚ)
        (ii : List ℤ) (dd : List ℚ) (cd : List (List ℕ)) (n a b c : ℕ),
      (_objective_wrap func args x ii dd cd n a b c).2 = 0) ∧
    _objective_wrap (fun _ _ => PyVal.tup (PyVal.float 5) (PyVal.int 1))
        [] [0] [] [] [] 1 0 0 0
      = (PyVal.tup (PyVal.float 5) (PyVal.int 1), 0) :=
  ⟨fun _ _ _ _ _ _ _ _ _ _ => rfl, rfl⟩

/-- C8: for every point `x` at which the engine requests an evaluation,
the wrapped objective invokes the user function as `func(x, *args)`:
the value component is exactly `func` applied to `x` and the unchanged
`args` tuple supplied to `minimize`, whatever the Fortran-convention
dummy arguments are. -/
theorem objective_args_forwarded (func : Objective) (args : List PyVal)
    (x : List ℚ) (ii : List ℤ) (dd : List ℚ) (cd : List (List ℕ))
    (n a b c : ℕ) :
    (_objective_wrap func args x ii dd cd n a b c).1 = func x args :=
  rfl

/-- C1: whenever the underlying `direct` routine returns `(x, f, ierror)`
for the given call, a negative `ierror` makes `minimize` raise (the
result is an error, never a plain return value) and a non-negative
`ierror` makes `minimize` return an `OptimizeResult` whose `status`
entry is exactly `ierror`. -/
theorem minimize_ierror_dispatch (direct : DirectEngine) (func : Objective)
    (bounds : Option (List (ℚ × ℚ))) (nvar : ℕ) (args : List PyVal)
    (disp : Bool) (eps : ℚ) (maxf maxT algmethod : ℤ)
    (fglobal fglper volper sigmaper : ℚ) (logfilename : String)
    (x : List ℚ) (f : ℚ) (ierror : ℤ)
    (hdir : direct (_objective_wrap func args) eps maxf maxT
        (compute_bounds bounds nvar).1 (compute_bounds bounds nvar).2
        algmethod logfilename fglobal fglper volper sigmaper [] [] []
        = (x, f, ierror)) :
    (ierror < 0 → ∃ e, minimize direct func bounds nvar args disp eps maxf
        maxT algmethod fglobal fglper volper sigmaper logfilename
        = Except.error e) ∧
    (0 ≤ ierror → ∃ r, minimize direct func bounds nvar args disp eps maxf
        maxT algmethod fglobal fglper volper sigmaper logfilename
        = Except.ok r ∧ plookup r "status" = some (PyVal.int ierror)) := by
  have hmin : minimize direct func bounds nvar args disp eps maxf maxT
      algmethod fglobal fglper volper sigmaper logfilename
      = minimize_finish x f ierror := by
    unfold minimize
    rw [hdir]
  constructor
  · intro hneg
    rw [hmin]
    unfold minimize_finish
    rw [if_pos hneg]
    cases pySubscript ERROR_MESSAGES (ierror.natAbs - 1) with
    | ok msg => exact ⟨PyErr.exception msg, rfl⟩
    | error e => exact ⟨e, rfl⟩
  · intro hpos
    rw [hmin]
    unfold minimize_finish
    rw [if_neg (not_lt.mpr hpos)]
    refine ⟨_, rfl, ?_⟩
    rw [plookup_cons, if_neg (by decide), plookup_cons, if_neg (by decide),
      plookup_cons, if_pos rfl]

/-- Closed instantiation of `minimize_ierror_dispatch`: an engine
reporting `ierror = -2` makes `minimize` raise, and one reporting
`ierror = 3` makes it return with `status = 3`. -/
theorem minimize_ierror_dispatch_witness :
    (∃ e, minimize (constEngine ([], 0, -2)) (fun _ _ => PyVal.float 0)
      none 1 [] false 0 0 0 0 0 0 0 0 "" = Except.error e) ∧
    (∃ r, minimize (constEngine ([], 0, 3)) (fun _ _ => PyVal.float 0)
      none 1 [] false 0 0 0 0 0 0 0 0 "" = Except.ok r ∧
      plookup r "status" = some (PyVal.int 3)) :=
  ⟨(minimize_ierror_dispatch (constEngine ([], 0, -2))
      (fun _ _ => PyVal.float 0) none 1 [] false 0 0 0 0 0 0 0 0 ""
      [] 0 (-2) rfl).1 (by decide),
   (minimize_ierror_dispatch (constEngine ([], 0, 3))
      (fun _ _ => PyVal.float 0) none 1 [] false 0 0 0 0 0 0 0 0 ""
      [] 0 3 rfl).2 (by decide)⟩

/-- C2 (code bug): a `minimize` call that terminates on a success
condition (here the engine reports `ierror = 1`, the evaluation-budget
criterion, with best point `[1/2]` and best value `3/4`) returns an
`OptimizeResult` holding only the keys `x`, `fun` and `status`: the
human-readable message and the evaluation count promised by the spec
(and by the function's own docstring) are absent, and reading them
raises `AttributeError`. -/
theorem minimize_result_lacks_message_and_nfev :
    ∃ r, minimize (constEngine ([1/2], 3/4, 1)) (fun _ _ => PyVal.float 0)
        none 1 [] false (1/10^4) 20000 6000 0 (-(10^100)) (1/100) (-1) (-1)
        "DIRresults.txt" = Except.ok r ∧
      r.map Prod.fst = ["x", "fun", "status"] ∧
      plookup r "x" = some (PyVal.arr [1/2]) ∧
      plookup r "fun" = some (PyVal.float (3/4)) ∧
      plookup r "status" = some (PyVal.int 1) ∧
      OptimizeResult.getattr r "message"
        = Except.error (PyErr.attributeError "message") ∧
      OptimizeResult.getattr r "nfev"
        = Except.error (PyErr.attributeError "nfev") :=
  ⟨[("x", PyVal.arr [1/2]), ("fun", PyVal.float (3/4)),
    ("status", PyVal.int 1)], rfl, rfl, rfl, rfl, rfl, rfl, rfl⟩

/-- C7: with explicit bounds the engine receives the first components
as the lower-bound vector and the second components as the upper-bound
vector, in order; with `bounds` omitted and a dimensionality `nvar`,
it receives the unit box — `0` below and `1` above in each of the
`nvar` dimensions. -/
theorem compute_bounds_spec (bs : List (ℚ × ℚ)) (nvar i : ℕ) :
    (compute_bounds (some bs) nvar).1.get? i = (bs.get? i).map Prod.fst ∧
    (compute_bounds (some bs) nvar).2.get? i = (bs.get? i).map Prod.snd ∧
    (compute_bounds none nvar).1.length = nvar ∧
    (compute_bounds none nvar).2.length = nvar ∧
    (i < nvar → (compute_bounds none nvar).1.get? i = some 0 ∧
      (compute_bounds none nvar).2.get? i = some 1) := by
  refine ⟨?_, ?_, ?_, ?_, fun h => ⟨?_, ?_⟩⟩
  · simp [compute_bounds]
  · simp [compute_bounds]
  · simp [compute_bounds]
  · simp [compute_bounds]
  · simp [compute_bounds, h]
  · simp [compute_bounds, h]

/-- Closed instantiation of `compute_bounds_spec` at bounds
`[(2, 5), (-1, 7)]`, `nvar = 3`, index `1`. -/
theorem compute_bounds_spec_witness :
    (compute_bounds (some [(2, 5), (-1, 7)]) 3).1.get? 1
        = ((([(2, 5), (-1, 7)] : List (ℚ × ℚ)).get? 1).map Prod.fst) ∧
    (compute_bounds none 3).1.get? 1 = some 0 ∧
    (compute_bounds none 3).2.get? 1 = some 1 :=
  ⟨(compute_bounds_spec [(2, 5), (-1, 7)] 3 1).1,
   ((compute_bounds_spec [(2, 5), (-1, 7)] 3 1).2.2.2.2 (by decide)).1,
   ((compute_bounds_spec [(2, 5), (-1, 7)] 3 1).2.2.2.2 (by decide)).2⟩

/-- C9: `OptimizeResult`'s attribute protocol is its `dict` protocol.
Reading an attribute returns the stored entry when the name is a key
and raises `AttributeError` (never `KeyError`) when it is not; writing
an attribute stores the entry under that name and leaves every other
key unchanged; deleting an attribute is dict item deletion — it raises
`KeyError` on a missing key and otherwise removes exactly that key. -/
theorem optimize_result_attr_protocol (r : PyDict) (name : String)
    (v : PyVal) :
    (∀ w, plookup r name = some w →
      OptimizeResult.getattr r name = Except.ok w) ∧
    (plookup r name = none →
      OptimizeResult.getattr r name
        = Except.error (PyErr.attributeError name)) ∧
    OptimizeResult.getattr r name ≠ Except.error PyErr.keyError ∧
    plookup (OptimizeResult.setattr r name v) name = some v ∧
    (∀ k, k ≠ name →
      plookup (OptimizeResult.setattr r name v) k = plookup r k) ∧
    (plookup r name = none →
      OptimizeResult.delattr r name = Except.error PyErr.keyError) ∧
    (∀ w, plookup r name = some w → ∃ r2,
      OptimizeResult.delattr r name = Except.ok r2 ∧
      plookup r2 name = none ∧
      ∀ k, k ≠ name → plookup r2 k = plookup r k) := by
  refine ⟨?_, ?_, ?_, ?_, ?_, ?_, ?_⟩
  · intro w hw
    unfold OptimizeResult.getattr dict_getitem
    rw [hw]
  · intro hw
    unfold OptimizeResult.getattr dict_getitem
    rw [hw]
  · unfold OptimizeResult.getattr dict_getitem
    cases plookup r name <;> simp
  · unfold OptimizeResult.setattr dict_setitem
    cases hw : plookup r name with
    | some w =>
      exact plookup_map_update_self r name v (by rw [hw]; rfl)
    | none =>
      exact plookup_append_single r name v hw
  · intro k hk
    unfold OptimizeResult.setattr dict_setitem
    cases hw : plookup r name with
    | some w =>
      exact plookup_map_update_other r name k v fun h => hk h.symm
    | none =>
      exact plookup_append_single_other r name k v fun h => hk h.symm
  · intro hw
    unfold OptimizeResult.delattr dict_delitem
    rw [hw]
  · intro w hw
    unfold OptimizeResult.delattr dict_delitem
    rw [hw]
    refine ⟨_, rfl, plookup_filter_out r name, ?_⟩
    intro k hk
    exact plookup_filter_other r name k hk

/-- Closed instantiation of `optimize_result_attr_protocol` on the
one-entry dict `x ↦ 7`: reading `x` yields the entry, reading
`message` raises `AttributeError`, writing `fun` stores it, deleting
`x` removes it. -/
theorem optimize_result_attr_protocol_witness :
    OptimizeResult.getattr [("x", PyVal.int 7)] "x"
      = Except.ok (PyVal.int 7) ∧
    OptimizeResult.getattr [("x", PyVal.int 7)] "message"
      = Except.error (PyErr.attributeError "message") ∧
    plookup (OptimizeResult.setattr [("x", PyVal.int 7)] "fun"
      (PyVal.float 2)) "fun" = some (PyVal.float 2) ∧
    (∃ r2, OptimizeResult.delattr [("x", PyVal.int 7)] "x"
        = Except.ok r2 ∧ plookup r2 "x" = none ∧
      ∀ k, k ≠ "x" → plookup r2 k = plookup [("x", PyVal.int 7)] k) :=
  ⟨(optimize_result_attr_protocol [("x", PyVal.int 7)] "x"
      (PyVal.int 0)).1 (PyVal.int 7) (by decide),
   (optimize_result_attr_protocol [("x", PyVal.int 7)] "message"
      (PyVal.int 0)).2.1 (by decide),
   (optimize_result_attr_protocol [("x", PyVal.int 7)] "fun"
      (PyVal.float 2)).2.2.2.1,
   (optimize_result_attr_protocol [("x", PyVal.int 7)] "x"
      (PyVal.int 0)).2.2.2.2.2.2 (PyVal.int 7) (by decide)⟩

/-- C10: every `OptimizeResult` returned by a successful `minimize`
call (engine status `ierror ≥ 0`) holds exactly the three keys `x`,
`fun`, `status` in that order, and reading any of the documented
attributes `success`, `message`, `nit`, `nfev` on it raises
`AttributeError`. -/
theorem minimize_result_exact_keys (direct : DirectEngine)
    (func : Objective) (bounds : Option (List (ℚ × ℚ))) (nvar : ℕ)
    (args : List PyVal) (disp : Bool) (eps : ℚ)
    (maxf maxT algmethod : ℤ) (fglobal fglper volper sigmaper : ℚ)
    (logfilename : String) (x : List ℚ) (f : ℚ) (ierror : ℤ)
    (hdir : direct (_objective_wrap func args) eps maxf maxT
        (compute_bounds bounds nvar).1 (compute_bounds bounds nvar).2
        algmethod logfilename fglobal fglper volper sigmaper [] [] []
        = (x, f, ierror))
    (hpos : 0 ≤ ierror) :
    ∃ r, minimize direct func bounds nvar args disp eps maxf maxT
        algmethod fglobal fglper volper sigmaper logfilename
        = Except.ok r ∧
      r.map Prod.fst = ["x", "fun", "status"] ∧
      ∀ name, name ∈ (["success", "message", "nit", "nfev"] : List String) →
        OptimizeResult.getattr r name
          = Except.error (PyErr.attributeError name) := by
  have hmin : minimize direct func bounds nvar args disp eps maxf maxT
      algmethod fglobal fglper volper sigmaper logfilename
      = minimize_finish x f ierror := by
    unfold minimize
    rw [hdir]
  rw [hmin]
  unfold minimize_finish
  rw [if_neg (not_lt.mpr hpos)]
  refine ⟨_, rfl, rfl, ?_⟩
  intro name hname
  have hget : ∀ nm : String, nm ≠ "x" → nm ≠ "fun" → nm ≠ "status" →
      OptimizeResult.getattr [("x", PyVal.arr x), ("fun", PyVal.float f),
        ("status", PyVal.int ierror)] nm
        = Except.error (PyErr.attributeError nm) := by
    intro nm h1 h2 h3
    unfold OptimizeResult.getattr dict_getitem
    rw [plookup_cons, if_neg fun h => h1 h.symm,
      plookup_cons, if_neg fun h => h2 h.symm,
      plookup_cons, if_neg fun h => h3 h.symm]
    rfl
  simp only [List.mem_cons, List.not_mem_nil, or_false] at hname
  rcases hname with h | h | h | h
  all_goals subst h
  all_goals exact hget _ (by decide) (by decide) (by decide)

/-- Closed instantiation of `minimize_result_exact_keys` with a
constant engine reporting status `2`. -/
theorem minimize_result_exact_keys_witness :
    ∃ r, minimize (constEngine ([3], 9, 2)) (fun _ _ => PyVal.float 0)
        none 1 [] false 0 0 0 0 0 0 0 0 "" = Except.ok r ∧
      r.map Prod.fst = ["x", "fun", "status"] ∧
      ∀ name, name ∈ (["success", "message", "nit", "nfev"] : List String) →
        OptimizeResult.getattr r name
          = Except.error (PyErr.attributeError name) :=
  minimize_result_exact_keys (constEngine ([3], 9, 2))
    (fun _ _ => PyVal.float 0) none 1 [] false 0 0 0 0 0 0 0 0 ""
    [3] 9 2 rfl (by decide)
